import Mathlib

/-!
Verification of the notification-preferences backend
(`backend/models.py`, `backend/routes/notifications.py`,
`backend/middleware/auth.py`, `backend/main.py`).

The embedding is shallow: Python dicts become association lists,
`None` becomes `Option.none`, JSON error responses become an
`ApiResponse` inductive, and the SQLAlchemy session is abstracted as an
`Except`-valued fetch result supplied to the handler.
-/

namespace NotifPrefs

/-- A localized-descriptions JSON object: language code to text.
Python `dict` semantics are captured by first-match association lookup
(keys are unique in a dict, so first match is the only match). -/
abbrev Descriptions := List (String × String)

/-- `d.get(k)` on a Python dict. -/
def dictGet (d : Descriptions) (k : String) : Option String :=
  (d.find? (fun p => p.1 == k)).map (fun p => p.2)

/-- `backend/models.py` `NotificationType` row. `descriptions` is
`Option`-valued so that a NULL/missing JSON value (Python `None`) is
representable alongside an empty object. -/
structure NotificationType where
  id : Int
  key : String
  descriptions : Option Descriptions
  available : Bool
  deprecated : Bool
  deprecated_reason : Option String
  created_at : Option String
  updated_at : Option String
deriving DecidableEq, Repr

/-- Python `a or b` where `a` is the result of `dict.get` (an optional
string): `None` and the empty string are falsy, so both fall through
to `b`. -/
def pyOrStr (a : Option String) (b : String) : String :=
  match a with
  | none => b
  | some s => if s = "" then b else s

/-- `NotificationType.get_description` from `backend/models.py`:
`if not self.descriptions: return ""` then
`return self.descriptions.get(lang) or self.descriptions.get("en") or ""`. -/
def NotificationType.get_description (nt : NotificationType) (lang : String) : String :=
  match nt.descriptions with
  | none => ""
  | some d =>
      if d.isEmpty then ""
      else pyOrStr (dictGet d lang) (pyOrStr (dictGet d "en") "")

/-- The description-lookup policy in the spec's words: return
`descriptions[lang]` if that key is present; else `descriptions["en"]`
if present; else the empty string. (Written from the spec for a
refinement comparison with the code's `get_description`.) -/
def spec_description_lookup (descriptions : Option Descriptions) (lang : String) : String :=
  match descriptions with
  | none => ""
  | some d =>
      match dictGet d lang with
      | some s => s
      | none =>
          match dictGet d "en" with
          | some s => s
          | none => ""

/-- The amended policy the code actually implements: a present but
*empty* `descriptions[lang]` (or `descriptions["en"]`) is skipped, as
Python's `or` treats the empty string as falsy. -/
def amended_description_lookup (descriptions : Option Descriptions) (lang : String) : String :=
  match descriptions with
  | none => ""
  | some d =>
      match dictGet d lang with
      | some s =>
          if s ≠ "" then s
          else
            match dictGet d "en" with
            | some t => if t ≠ "" then t else ""
            | none => ""
      | none =>
          match dictGet d "en" with
          | some t => if t ≠ "" then t else ""
          | none => ""

/-- `backend/schemas.py` `NotificationTypeOut`: the response item. -/
structure NotificationTypeOut where
  id : Int
  key : String
  descriptions : Option Descriptions
  available : Bool
  deprecated : Bool
  deprecated_reason : Option String
  created_at : Option String
  updated_at : Option String
deriving DecidableEq, Repr

/-- The `NotificationTypeOut(...)` construction inside the handler loop in
`backend/routes/notifications.py`: every field is copied unchanged from
the stored record. -/
def NotificationTypeOut.ofRecord (nt : NotificationType) : NotificationTypeOut :=
  { id := nt.id
    key := nt.key
    descriptions := nt.descriptions
    available := nt.available
    deprecated := nt.deprecated
    deprecated_reason := nt.deprecated_reason
    created_at := nt.created_at
    updated_at := nt.updated_at }

/-- A store-level failure raised by `db.query(...).all()`: either a
`SQLAlchemyError` (with its message) or any other exception. -/
inductive FetchError where
  | sqlalchemyError (msg : String)
  | otherError (msg : String)
deriving DecidableEq, Repr

/-- Outcome of a route invocation: a 200 body (the
`NotificationTypeListResponse` container) or a JSON error response with
status code and `detail` string. -/
inductive ApiResponse where
  | ok (notification_types : List NotificationTypeOut)
  | err (status : Nat) (detail : String)
deriving DecidableEq, Repr

/-- Python `a <= b` on strings: lexicographic comparison of the
codepoint sequences (a Python `str` is a sequence of code points, so we
compare `String.data` under the lexicographic list order). -/
def pyStrLe (a b : String) : Prop :=
  a.data ≤ b.data

instance : DecidableRel pyStrLe := fun a b =>
  inferInstanceAs (Decidable (a.data ≤ b.data))

/-- Python `result_types.sort(key=lambda x: x.key)`: an ascending stable
sort comparing `key` strings (codepoint-lexicographic). -/
def sortByKey (l : List NotificationTypeOut) : List NotificationTypeOut :=
  l.insertionSort (fun a b => pyStrLe a.key b.key)

/-- The `get_notification_types` handler body in
`backend/routes/notifications.py`. The SQLAlchemy session is abstracted as
the already-resolved result of `db.query(NotificationType).all()`; `lang`
is the validated query parameter (never consulted by the body). -/
def get_notification_types (fetch : Except FetchError (List NotificationType))
    (lang : String) : ApiResponse :=
  match fetch with
  | .error (.sqlalchemyError _) =>
      .err 500 "Failed to fetch notification types. Please try again later."
  | .error (.otherError _) =>
      .err 500 "Internal server error. Please try again later."
  | .ok notification_types =>
      let result_types :=
        (notification_types.filter (fun nt => nt.available)).map NotificationTypeOut.ofRecord
      .ok (sortByKey result_types)

/-- The FastAPI `Query("en", min_length=2, max_length=5)` constraint on
`lang`. -/
def lang_valid (lang : String) : Bool :=
  2 ≤ lang.length && lang.length ≤ 5

/-- The route as seen by a client: FastAPI rejects an out-of-bounds `lang`
with a 422 before the handler runs (`validation_exception_handler` in
`backend/main.py`), otherwise the handler body runs. -/
def route_get_notification_types (fetch : Except FetchError (List NotificationType))
    (lang : String) : ApiResponse :=
  if lang_valid lang then get_notification_types fetch lang
  else .err 422 "Invalid request data."

/-- A decoded JWT payload (`dict` of claims); the only property the core
inspects is Python truthiness, i.e. emptiness. -/
abbrev Payload := List (String × String)

/-- The `HTTPAuthorizationCredentials` value produced by
`HTTPBearer(auto_error=False)`. -/
structure HTTPAuthorizationCredentials where
  scheme : String
  credentials : String
deriving DecidableEq, Repr

/-- The part of an inbound request `AuthMiddleware.dispatch` reads: its
path and the parsed authorization header (`none` when the header is
absent or unparseable). -/
structure AuthRequest where
  path : String
  credentials : Option HTTPAuthorizationCredentials
deriving DecidableEq, Repr

/-- Outcome of `jwt.decode(token, JWT_SECRET, algorithms=[JWT_ALGORITHM])`:
a payload, or one of the exception classes the middleware catches. -/
inductive TokenResult where
  | ok (payload : Payload)
  | expiredSignatureError
  | invalidTokenError
  | otherFailure
deriving DecidableEq, Repr

/-- Outcome of `AuthMiddleware.dispatch`: pass through without
authentication (allow-listed path), proceed to `call_next` with the
payload attached as `request.state.user`, or short-circuit with a JSON
error response. -/
inductive DispatchResult where
  | passthrough
  | proceed (payload : Payload)
  | reject (status : Nat) (detail : String)
deriving DecidableEq, Repr

/-- Python `s.startswith(pre)`: the codepoint sequence of `pre` is a
prefix of that of `s`. -/
def pyStartsWith (s pre : String) : Bool :=
  pre.data.isPrefixOf s.data

/-- Python `s.lower()` (ASCII case folding suffices for the scheme
comparison it is used for). -/
def pyLower (s : String) : String :=
  ⟨s.data.map Char.toLower⟩

/-- The allow-list test at the top of `AuthMiddleware.dispatch`. -/
def allowListed (path : String) : Bool :=
  pyStartsWith path "/health" || pyStartsWith path "/docs" ||
    pyStartsWith path "/openapi.json" || pyStartsWith path "/redoc"

/-- `AuthMiddleware.dispatch` from `backend/middleware/auth.py`.
`decode` abstracts `jwt.decode` with the configured secret and
algorithm. -/
def dispatch (decode : String → TokenResult) (req : AuthRequest) : DispatchResult :=
  if allowListed req.path then .passthrough
  else
    match req.credentials with
    | none => .reject 401 "Authentication required. Please log in."
    | some c =>
        if pyLower c.scheme ≠ "bearer" then
          .reject 401 "Authentication required. Please log in."
        else
          match decode c.credentials with
          | .ok payload => .proceed payload
          | .expiredSignatureError => .reject 401 "Session expired. Please log in again."
          | .invalidTokenError => .reject 401 "Invalid authentication token."
          | .otherFailure => .reject 401 "Authentication failed. Please log in."

/-- `get_current_user` from `backend/middleware/auth.py`:
`user = getattr(request.state, "user", None); if not user: raise ...`.
Python truthiness makes it reject both an absent `request.state.user`
and an attached empty payload. -/
def get_current_user (state_user : Option Payload) : Except (Nat × String) Payload :=
  match state_user with
  | none => .error (401, "Authentication required. Please log in.")
  | some user =>
      if user.isEmpty then .error (401, "Authentication required. Please log in.")
      else .ok user

/-- The `health_check` endpoint body from `backend/main.py`:
`return {"status": "ok"}` (FastAPI serves it with status 200). -/
def health_check : Nat × List (String × String) :=
  (200, [("status", "ok")])

/-! ### Sample records (mirroring the repository's test fixtures) -/

def email_alert : NotificationType :=
  ⟨1, "email_alert", some [("en", "Email alerts"), ("fr", "Alertes par email")],
    true, false, none, none, none⟩

def sms_alert : NotificationType :=
  ⟨2, "sms_alert", some [("en", "SMS alerts"), ("fr", "Alertes SMS")],
    true, true, some "Replaced by push notifications", none, none⟩

def push_alert : NotificationType :=
  ⟨3, "push_alert", some [("en", "Push notifications"), ("fr", "Notifications push")],
    true, false, none, none, none⟩

def legacy_alert : NotificationType :=
  ⟨4, "legacy_alert", some [("en", "Legacy alerts")],
    false, true, some "No longer supported", none, none⟩

/-- A deprecated, available record whose `deprecated_reason` was never
set. -/
def beta_alert : NotificationType :=
  ⟨5, "beta_alert", some [("en", "Beta alerts")], true, true, none, none, none⟩

def sampleRecords : List NotificationType :=
  [email_alert, sms_alert, push_alert, legacy_alert]

/-! ### Helper lemmas -/

theorem handler_ok_eq (records : List NotificationType) (lang : String) :
    get_notification_types (.ok records) lang =
      .ok (sortByKey
        ((records.filter fun nt => nt.available).map NotificationTypeOut.ofRecord)) := rfl

theorem mem_sortByKey {o : NotificationTypeOut} {l : List NotificationTypeOut} :
    o ∈ sortByKey l ↔ o ∈ l :=
  (List.perm_insertionSort _ l).mem_iff

theorem mem_result_iff (records : List NotificationType) (o : NotificationTypeOut) :
    o ∈ sortByKey ((records.filter fun nt => nt.available).map NotificationTypeOut.ofRecord) ↔
      ∃ nt, nt ∈ records ∧ nt.available = true ∧ NotificationTypeOut.ofRecord nt = o := by
  rw [mem_sortByKey, List.mem_map]
  constructor
  · rintro ⟨nt, hmem, rfl⟩
    rcases List.mem_filter.mp hmem with ⟨h1, h2⟩
    exact ⟨nt, h1, h2, rfl⟩
  · rintro ⟨nt, h1, h2, rfl⟩
    exact ⟨nt, List.mem_filter.mpr ⟨h1, h2⟩, rfl⟩

theorem ofRecord_available (nt : NotificationType) :
    (NotificationTypeOut.ofRecord nt).available = nt.available := rfl

instance : IsTotal NotificationTypeOut (fun a b => pyStrLe a.key b.key) :=
  ⟨fun a b => le_total a.key.data b.key.data⟩

instance : IsTrans NotificationTypeOut (fun a b => pyStrLe a.key b.key) :=
  ⟨fun _ _ _ h1 h2 => le_trans h1 h2⟩

/-! ### Claim theorems -/

/-- **C1.** For every list of stored `NotificationType` records, the list
returned by `get_notification_types` contains exactly those records whose
`available` field is true: every response item originates from an
available stored record, every available stored record appears, and no
record with `available = false` appears. -/
theorem listing_exactly_available (records : List NotificationType) (lang : String)
    (outs : List NotificationTypeOut)
    (h : get_notification_types (.ok records) lang = .ok outs) :
    (∀ o ∈ outs, ∃ nt, nt ∈ records ∧ nt.available = true ∧
        NotificationTypeOut.ofRecord nt = o) ∧
    (∀ nt ∈ records, nt.available = true → NotificationTypeOut.ofRecord nt ∈ outs) ∧
    (∀ nt ∈ records, nt.available = false → NotificationTypeOut.ofRecord nt ∉ outs) := by
  rw [handler_ok_eq] at h
  injection h with h
  subst h
  refine ⟨fun o ho => (mem_result_iff records o).mp ho,
    fun nt hnt hav => (mem_result_iff records _).mpr ⟨nt, hnt, hav, rfl⟩,
    fun nt hnt hav hmem => ?_⟩
  rcases (mem_result_iff records _).mp hmem with ⟨nt2, _, hav2, heq⟩
  have h2 : nt2.available = nt.available := by
    rw [← ofRecord_available, ← ofRecord_available, heq]
  rw [hav2, hav] at h2
  exact Bool.noConfusion h2

/-- Witness for C1 at the sample store: `legacy_alert` is unavailable and
is absent from the response. -/
theorem listing_exactly_available_witness :
    NotificationTypeOut.ofRecord legacy_alert ∉
      [NotificationTypeOut.ofRecord email_alert, NotificationTypeOut.ofRecord push_alert,
        NotificationTypeOut.ofRecord sms_alert] :=
  (listing_exactly_available sampleRecords "en"
      [NotificationTypeOut.ofRecord email_alert, NotificationTypeOut.ofRecord push_alert,
        NotificationTypeOut.ofRecord sms_alert]
      (by decide)).2.2 legacy_alert (by decide) rfl

/-- **C2.** For every list of stored records, the `notification_types`
list returned by the listing operation is sorted ascending by `key`
(codepoint-lexicographic, `pyStrLe`). -/
theorem listing_sorted_by_key (records : List NotificationType) (lang : String)
    (outs : List NotificationTypeOut)
    (h : get_notification_types (.ok records) lang = .ok outs) :
    outs.Sorted fun a b => pyStrLe a.key b.key := by
  rw [handler_ok_eq] at h
  injection h with h
  subst h
  exact List.sorted_insertionSort _ _

/-- Witness for C2 at the sample store. -/
theorem listing_sorted_by_key_witness :
    ([NotificationTypeOut.ofRecord email_alert, NotificationTypeOut.ofRecord push_alert,
        NotificationTypeOut.ofRecord sms_alert]).Sorted
      (fun a b => pyStrLe a.key b.key) :=
  listing_sorted_by_key sampleRecords "en"
    [NotificationTypeOut.ofRecord email_alert, NotificationTypeOut.ofRecord push_alert,
      NotificationTypeOut.ofRecord sms_alert]
    (by decide)

/-- **C7.** A store-level (`SQLAlchemyError`) failure during the fetch
yields status 500 with detail exactly
"Failed to fetch notification types. Please try again later." — for
every underlying cause, so the cause never reaches the response body. -/
theorem store_failure_translated (cause : String) (lang : String) :
    get_notification_types (.error (.sqlalchemyError cause)) lang =
      .err 500 "Failed to fetch notification types. Please try again later." := rfl

/-- **C8.** Every stored record with `deprecated = true` and
`available = true` appears in the response with `deprecated_reason`
equal to the stored value exactly (`Option`-valued, so a never-set
reason stays `none`). -/
theorem deprecated_reason_preserved (records : List NotificationType) (lang : String)
    (outs : List NotificationTypeOut) (nt : NotificationType)
    (h : get_notification_types (.ok records) lang = .ok outs)
    (hmem : nt ∈ records) (hdep : nt.deprecated = true) (hav : nt.available = true) :
    NotificationTypeOut.ofRecord nt ∈ outs ∧
    (NotificationTypeOut.ofRecord nt).deprecated = true ∧
    (NotificationTypeOut.ofRecord nt).deprecated_reason = nt.deprecated_reason := by
  rw [handler_ok_eq] at h
  injection h with h
  subst h
  refine ⟨(mem_result_iff records _).mpr ⟨nt, hmem, hav, rfl⟩, ?_, rfl⟩
  rw [show (NotificationTypeOut.ofRecord nt).deprecated = nt.deprecated from rfl, hdep]

/-- Witness for C8: `beta_alert` is deprecated with a never-set reason,
and the response preserves the `none`. -/
theorem deprecated_reason_preserved_witness :
    NotificationTypeOut.ofRecord beta_alert ∈
      [NotificationTypeOut.ofRecord beta_alert] ∧
    (NotificationTypeOut.ofRecord beta_alert).deprecated = true ∧
    (NotificationTypeOut.ofRecord beta_alert).deprecated_reason = beta_alert.deprecated_reason :=
  deprecated_reason_preserved [legacy_alert, beta_alert] "en"
    [NotificationTypeOut.ofRecord beta_alert] beta_alert
    (by decide) (by decide) rfl rfl

/-- **C3 counterexample.** The claim says `get_description` returns
`descriptions[lang]` whenever that key is present. But with
`descriptions = {"fr": "", "en": "Email alerts"}` and `lang = "fr"`,
the key `"fr"` is present with value `""`, yet Python's `or` treats the
empty string as falsy, so the code falls through to the `"en"` entry. -/
theorem description_lookup_diverges_from_spec :
    NotificationType.get_description
        ⟨6, "mixed", some [("fr", ""), ("en", "Email alerts")], true, false, none, none, none⟩
        "fr" = "Email alerts" ∧
    spec_description_lookup (some [("fr", ""), ("en", "Email alerts")]) "fr" = "" ∧
    NotificationType.get_description
        ⟨6, "mixed", some [("fr", ""), ("en", "Email alerts")], true, false, none, none, none⟩
        "fr" ≠
      spec_description_lookup (some [("fr", ""), ("en", "Email alerts")]) "fr" :=
  ⟨rfl, rfl, by decide⟩

/-- **C3 (amended).** For every descriptions mapping (including a
missing/`None` or empty one) and every language code, `get_description`
returns `descriptions[lang]` if that key is present *with a non-empty
value*; otherwise `descriptions["en"]` if present *with a non-empty
value*; otherwise the empty string. It is a total Lean function, so it
never raises. -/
theorem get_description_follows_amended_policy (nt : NotificationType) (lang : String) :
    nt.get_description lang = amended_description_lookup nt.descriptions lang := by
  rcases nt with ⟨i, k, descriptions, av, dep, reason, ca, ua⟩
  cases descriptions with
  | none => rfl
  | some d =>
    cases d with
    | nil => rfl
    | cons p ps =>
      show pyOrStr (dictGet (p :: ps) lang) (pyOrStr (dictGet (p :: ps) "en") "") = _
      simp only [amended_description_lookup]
      cases hA : dictGet (p :: ps) lang with
      | none =>
        cases hB : dictGet (p :: ps) "en" with
        | none => simp [pyOrStr]
        | some t =>
          by_cases ht : t = "" <;> simp [pyOrStr, ht]
      | some s =>
        by_cases hs : s = ""
        · cases hB : dictGet (p :: ps) "en" with
          | none => simp [pyOrStr, hs]
          | some t =>
            by_cases ht : t = "" <;> simp [pyOrStr, hs, ht]
        · simp [pyOrStr, hs]

/-- **C4.** On every path not on the allow-list, `AuthMiddleware.dispatch`
returns 401 with the fixed detail determined by the failure: missing or
non-Bearer credentials, expired token, invalid token, or any other
validation failure; on successful validation the payload is attached and
the request proceeds. -/
theorem access_gate_responses (decode : String → TokenResult) (req : AuthRequest)
    (h : allowListed req.path = false) :
    (req.credentials = none →
        dispatch decode req = .reject 401 "Authentication required. Please log in.") ∧
    (∀ c, req.credentials = some c →
      (pyLower c.scheme ≠ "bearer" →
          dispatch decode req = .reject 401 "Authentication required. Please log in.") ∧
      (pyLower c.scheme = "bearer" →
        (decode c.credentials = .expiredSignatureError →
            dispatch decode req = .reject 401 "Session expired. Please log in again.") ∧
        (decode c.credentials = .invalidTokenError →
            dispatch decode req = .reject 401 "Invalid authentication token.") ∧
        (decode c.credentials = .otherFailure →
            dispatch decode req = .reject 401 "Authentication failed. Please log in.") ∧
        (∀ p, decode c.credentials = .ok p → dispatch decode req = .proceed p))) := by
  exact ⟨fun hc => by simp [dispatch, h, hc],
    fun c hc => ⟨fun hs => by simp [dispatch, h, hc, hs],
      fun hs => ⟨fun hd => by simp [dispatch, h, hc, hs, hd],
        fun hd => by simp [dispatch, h, hc, hs, hd],
        fun hd => by simp [dispatch, h, hc, hs, hd],
        fun p hd => by simp [dispatch, h, hc, hs, hd]⟩⟩⟩

/-- Witness for C4: a request to the notifications route with a Bearer
credential whose token decodes as expired gets the session-expired
message. -/
theorem access_gate_responses_witness :
    dispatch (fun _ => TokenResult.expiredSignatureError)
        ⟨"/api/notifications/", some ⟨"Bearer", "tok"⟩⟩ =
      .reject 401 "Session expired. Please log in again." :=
  (((access_gate_responses (fun _ => TokenResult.expiredSignatureError)
        ⟨"/api/notifications/", some ⟨"Bearer", "tok"⟩⟩ (by decide)).2
      ⟨"Bearer", "tok"⟩ rfl).2 (by decide)).1 rfl

/-- **C5.** Every request whose path starts with an allow-listed prefix
passes through the Access Gate unconditionally (whatever the token
validator would say); `"/health"` is allow-listed, and the health
endpoint answers 200 with body `{"status": "ok"}`. -/
theorem allow_list_passthrough (decode : String → TokenResult) (req : AuthRequest)
    (h : allowListed req.path = true) :
    dispatch decode req = .passthrough ∧
    allowListed "/health" = true ∧
    health_check = (200, [("status", "ok")]) :=
  ⟨by simp [dispatch, h], by decide, rfl⟩

/-- Witness for C5: `GET /health` with no credentials passes the gate. -/
theorem allow_list_passthrough_witness :
    dispatch (fun _ => TokenResult.otherFailure) ⟨"/health", none⟩ = .passthrough :=
  (allow_list_passthrough (fun _ => TokenResult.otherFailure) ⟨"/health", none⟩
      (by decide)).1

/-- **C6.** For a fixed store state and any two valid-length language
codes, the route produces identical successful responses — `lang` has no
effect on the body — and every item carries the full stored
`descriptions` mapping unchanged. -/
theorem lang_has_no_effect (records : List NotificationType) (lang₁ lang₂ : String)
    (h₁ : lang_valid lang₁ = true) (h₂ : lang_valid lang₂ = true) :
    route_get_notification_types (.ok records) lang₁ =
      route_get_notification_types (.ok records) lang₂ ∧
    ∃ outs, route_get_notification_types (.ok records) lang₁ = .ok outs ∧
      ∀ o ∈ outs, ∃ nt, nt ∈ records ∧ o = NotificationTypeOut.ofRecord nt ∧
        o.descriptions = nt.descriptions := by
  have e₁ : route_get_notification_types (.ok records) lang₁ =
      get_notification_types (.ok records) lang₁ := by
    simp [route_get_notification_types, h₁]
  have e₂ : route_get_notification_types (.ok records) lang₂ =
      get_notification_types (.ok records) lang₂ := by
    simp [route_get_notification_types, h₂]
  refine ⟨by rw [e₁, e₂, handler_ok_eq, handler_ok_eq], ?_⟩
  refine ⟨_, by rw [e₁, handler_ok_eq], fun o ho => ?_⟩
  rcases (mem_result_iff records o).mp ho with ⟨nt, hmem, _, rfl⟩
  exact ⟨nt, hmem, rfl, rfl⟩

/-- Witness for C6: `lang = "en"` and `lang = "fr"` give the same
response on the sample store. -/
theorem lang_has_no_effect_witness :
    route_get_notification_types (.ok sampleRecords) "en" =
      route_get_notification_types (.ok sampleRecords) "fr" :=
  (lang_has_no_effect sampleRecords "en" "fr" (by decide) (by decide)).1

/-- **C9.** Invoked on a request that reached business logic without a
principal attached to the request state, `get_current_user` fails with
401 "Authentication required. Please log in." instead of returning a
value. -/
theorem no_principal_accessor_unauthorized :
    get_current_user none =
      .error (401, "Authentication required. Please log in.") := rfl

/-- **C10.** A validly signed token with an empty payload passes the
Access Gate — the empty payload is attached and the request proceeds —
yet `get_current_user` on that attached empty payload raises 401
"Authentication required. Please log in." (Python `if not user` is true
for an empty dict). -/
theorem empty_payload_passes_gate_but_fails_accessor :
    dispatch (fun _ => TokenResult.ok [])
        ⟨"/api/notifications/", some ⟨"Bearer", "tok"⟩⟩ =
      .proceed [] ∧
    get_current_user (some []) =
      .error (401, "Authentication required. Please log in.") :=
  ⟨by decide, rfl⟩

end NotifPrefs
